import Mathlib

/-!
Verification development for the INTERVIEW_CHATBOT repository
(single source file `src/app1.py`).

The file shallowly embeds the three functions the specification talks
about:

* `google_search` (app1.py lines 23-36): the search tool adapter.  The
  HTTP request plus JSON parsing (`requests.post` followed by
  `response.json().get("organic", [])`) is modelled by an oracle
  `post : String → Except String (Option (List String))`: `.error e`
  stands for any exception raised while performing the request or
  parsing the body (caught by the `except` clause), `.ok none` for a
  parsed JSON object without an `"organic"` key (Python then uses the
  default `[]`), and `.ok (some organic)` for a response whose
  `"organic"` field is the given list of result objects (each result
  object is kept abstract as a `String`).  `json.dumps` is modelled by
  an oracle `dumps : List String → String`.

* `system_prompt` (app1.py lines 86-102): the module-level globals
  `USER_NAME`, `USER_ROLE` and `GLOBAL_CONTEXT` that the Python
  function reads become explicit parameters; the f-string body is
  reproduced verbatim.

* `chat` (app1.py lines 104-143): the turn orchestrator.  The two
  completion calls made through the OpenAI client are modelled by an
  oracle `complete : List Msg → Bool → Except String Response`, the
  boolean recording whether the `tools=` parameter was attached
  (`true` on the first call, line 117-121, and absent, `false`, on the
  second call, line 135); `.error e` stands for an exception raised by
  the client.  `json.loads(tool_call.function.arguments)` followed by
  keyword binding `google_search(**args)` is modelled by an oracle
  `decodeArgs : String → Except String String` producing the query
  string or an exception, and the tool execution itself by a total
  `search : String → String` (the Python `google_search` catches every
  exception, so it is total).  `chatT` additionally returns the trace
  of completion calls (messages passed, tools flag) so that theorems
  can speak about what was sent to the backend; `chat` is its first
  projection.  An `Except.error` result of `chat` models an uncaught
  exception escaping to the caller (only possible during history
  normalization, lines 106-113, which sit before the `try` block),
  while `.ok s` models a normal return of the string `s`.
-/

namespace InterviewBot

/-- Embeds one entry of an OpenAI tool_calls list:
`{id, function: {name, arguments}}` flattened. -/
structure ToolCall where
  id : String
  name : String
  arguments : String
deriving DecidableEq

/-- Embeds a chat message dict as used in app1.py: role, content, the
optional tool_call_id of a tool-result message, and the tool_calls
carried by an assistant message (empty list when absent). -/
structure Msg where
  role : String
  content : String
  tool_call_id : Option String
  tool_calls : List ToolCall
deriving DecidableEq

/-- Embeds `response.choices[0].message`: its content and its
tool_calls (Python `None` and the empty list are both falsy under
`if msg.tool_calls:`, so both are modelled by `[]`). -/
structure Response where
  content : String
  tool_calls : List ToolCall
deriving DecidableEq

/-- Embeds one entry of the `history` argument of `chat`:
a list/tuple (kept as its list of elements), a dict (an already
structured message), or a value of any other type, discriminated in
app1.py lines 108-112 by `isinstance`. -/
inductive HistoryEntry where
  | pair (items : List String) : HistoryEntry
  | dict (m : Msg) : HistoryEntry
  | other : HistoryEntry
deriving DecidableEq

/-- The dict `{"role": "system", "content": c}`. -/
def mkSystem (c : String) : Msg := ⟨"system", c, none, []⟩

/-- The dict `{"role": "user", "content": c}`. -/
def mkUser (c : String) : Msg := ⟨"user", c, none, []⟩

/-- The dict `{"role": "assistant", "content": c}`. -/
def mkAssistant (c : String) : Msg := ⟨"assistant", c, none, []⟩

/-- The dict `{"role": "tool", "tool_call_id": tcid, "content": c}`
appended at app1.py line 132. -/
def mkToolMsg (tcid c : String) : Msg := ⟨"tool", c, some tcid, []⟩

/-- The assistant message object `msg` appended at app1.py line 126:
it carries the first response content and its tool_calls field. -/
def assistantOf (r : Response) : Msg := ⟨"assistant", r.content, none, r.tool_calls⟩

/-- Embeds the body of the history loop, app1.py lines 107-112, for a
single entry.  A list/tuple entry yields a user message from
`entry[0]` (an IndexError escapes if the list is empty, modelled as
`.error`) and, when `len(entry) > 1 and entry[1]` (a non-empty second
element, Python truthiness on strings), an assistant message from
`entry[1]`.  A dict entry is appended verbatim; anything else is
skipped. -/
def normalizeEntry : HistoryEntry → Except String (List Msg)
  | .pair [] => .error "IndexError: list index out of range"
  | .pair (u :: rest) =>
      match rest with
      | a :: _ => if a = "" then .ok [mkUser u] else .ok [mkUser u, mkAssistant a]
      | [] => .ok [mkUser u]
  | .dict m => .ok [m]
  | .other => .ok []

/-- Runs `normalizeEntry` over the whole history, in order,
propagating an uncaught exception. -/
def normalizeEntries : List HistoryEntry → Except String (List Msg)
  | [] => .ok []
  | e :: es =>
      match normalizeEntry e with
      | .error err => .error err
      | .ok ms =>
          match normalizeEntries es with
          | .error err => .error err
          | .ok rest => .ok (ms ++ rest)

/-- Embeds app1.py lines 106-113: the working message list starts with
the system message, then the normalized history entries, then the new
user message. -/
def normalizeHistory (sysPrompt : String) (history : List HistoryEntry)
    (message : String) : Except String (List Msg) :=
  match normalizeEntries history with
  | .error err => .error err
  | .ok ms => .ok (mkSystem sysPrompt :: ms ++ [mkUser message])

/-- Embeds the tool dispatch loop, app1.py lines 128-132: for each
requested call in order, only a call named "google_search" is handled;
its arguments are decoded (a decode exception aborts the loop and is
caught by the outer handler) and a tool message with the matching
tool_call_id and the search result is appended.  A call with any other
name is skipped: the loop body has no else branch. -/
def dispatchTools (decodeArgs : String → Except String String)
    (search : String → String) : List ToolCall → Except String (List Msg)
  | [] => .ok []
  | tc :: rest =>
      if tc.name = "google_search" then
        match decodeArgs tc.arguments with
        | .error err => .error err
        | .ok q =>
            match dispatchTools decodeArgs search rest with
            | .error err => .error err
            | .ok ms => .ok (mkToolMsg tc.id (search q) :: ms)
      else
        dispatchTools decodeArgs search rest

/-- Embeds `google_search`, app1.py lines 23-36: post the query, take
the `"organic"` field (default `[]`), keep the first two entries,
serialize them; any exception of the request/parse is converted into a
"Search Error: ..." string.  The function is total: it never raises. -/
def google_search (post : String → Except String (Option (List String)))
    (dumps : List String → String) (query : String) : String :=
  match post query with
  | .error e => "Search Error: " ++ e
  | .ok organicField => dumps ((organicField.getD []).take 2)

/-- Embeds `system_prompt`, app1.py lines 86-102, with the globals
`USER_NAME`, `USER_ROLE`, `GLOBAL_CONTEXT` as parameters.  The
f-string body is reproduced verbatim (apostrophes written \x27). -/
def system_prompt (userName userRole globalContext : String) : String :=
  "\n    You are acting as " ++ userName ++ ", a " ++ userRole ++
    ".\n    \n    ## DUAL GOAL\n    1. **Candidate:** Answer impressively using the RESUME CONTEXT.\n    2. **Coach:** After the answer, explain WHY it is good.\n\n    ## INSTRUCTIONS\n    - Speak in First Person (\"I\", \"Me\").\n    - Use the STAR Method (Situation, Task, Action, Result).\n    - If asked about a company, use \x27google_search\x27 first.\n    - End with a \x27Coach\x27s Note\x27.\n\n    ## RESUME CONTEXT\n    " ++
    globalContext ++ "\n    "

/-- Embeds `chat`, app1.py lines 104-143, instrumented with the trace
of completion calls: each trace element is the message list sent and
whether tool specs were attached.  Control flow follows the source: a
normalization exception escapes uncaught (it is raised before the
`try`); inside the `try`, the first completion is issued with tools
attached; if its response carries a non-empty tool_calls list the
assistant message and the dispatched tool results are appended and a
second completion is issued without tools, whose content is returned;
otherwise the first content is returned; any exception of a completion
call or of argument decoding yields "System Error: ...". -/
def chatT (complete : List Msg → Bool → Except String Response)
    (decodeArgs : String → Except String String) (search : String → String)
    (sysPrompt message : String) (history : List HistoryEntry) :
    Except String String × List (List Msg × Bool) :=
  match normalizeHistory sysPrompt history message with
  | .error err => (.error err, [])
  | .ok messages =>
      match complete messages true with
      | .error e => (.ok ("System Error: " ++ e), [(messages, true)])
      | .ok resp =>
          if resp.tool_calls = [] then
            (.ok resp.content, [(messages, true)])
          else
            match dispatchTools decodeArgs search resp.tool_calls with
            | .error e => (.ok ("System Error: " ++ e), [(messages, true)])
            | .ok toolMsgs =>
                let messages2 := messages ++ assistantOf resp :: toolMsgs
                match complete messages2 false with
                | .error e =>
                    (.ok ("System Error: " ++ e), [(messages, true), (messages2, false)])
                | .ok finalRes =>
                    (.ok finalRes.content, [(messages, true), (messages2, false)])

/-- The observable behavior of `chat`: the returned string (`.ok`) or
an uncaught exception (`.error`). -/
def chat (complete : List Msg → Bool → Except String Response)
    (decodeArgs : String → Except String String) (search : String → String)
    (sysPrompt message : String) (history : List HistoryEntry) :
    Except String String :=
  (chatT complete decodeArgs search sysPrompt message history).1

/-! Helper lemmas about the dispatch loop and history normalization. -/

/-- When every requested call is named "google_search" and the loop
completes without an exception, the produced tool messages carry, in
order, the ids of the requests, and all have role "tool". -/
theorem dispatchTools_map_spec (d : String → Except String String)
    (s : String → String) :
    ∀ tcs tms, (∀ tc ∈ tcs, tc.name = "google_search") →
      dispatchTools d s tcs = Except.ok tms →
      tms.map (fun m => m.tool_call_id) = tcs.map (fun tc => some tc.id) ∧
        tms.map (fun m => m.role) = tcs.map (fun _ => "tool") := by
  intro tcs
  induction tcs with
  | nil =>
      intro tms _ hdisp
      simp only [dispatchTools] at hdisp
      cases hdisp
      simp
  | cons tc rest ih =>
      intro tms hname hdisp
      have hn : tc.name = "google_search" := hname tc (List.mem_cons_self _ _)
      simp only [dispatchTools, hn, if_pos] at hdisp
      cases hq : d tc.arguments with
      | error e => rw [hq] at hdisp; simp at hdisp
      | ok q =>
          rw [hq] at hdisp
          cases hr : dispatchTools d s rest with
          | error e => rw [hr] at hdisp; simp at hdisp
          | ok ms =>
              rw [hr] at hdisp
              cases hdisp
              have := ih ms (fun x hx => hname x (List.mem_cons_of_mem _ hx)) hr
              simp [mkToolMsg, this.1, this.2]

/-- A run of the dispatch loop over calls none of which is named
"google_search" appends nothing and raises nothing. -/
theorem dispatchTools_all_unknown (d : String → Except String String)
    (s : String → String) :
    ∀ tcs, (∀ tc ∈ tcs, tc.name ≠ "google_search") →
      dispatchTools d s tcs = Except.ok [] := by
  intro tcs
  induction tcs with
  | nil => intro _; rfl
  | cons tc rest ih =>
      intro h
      have hn : ¬ tc.name = "google_search" := h tc (List.mem_cons_self _ _)
      simp only [dispatchTools, hn, if_neg]
      exact ih (fun x hx => h x (List.mem_cons_of_mem _ hx))

/-- Normalizing a history whose list/tuple entries are all non-empty
never raises. -/
theorem normalizeEntries_ok :
    ∀ hist : List HistoryEntry, (∀ l, HistoryEntry.pair l ∈ hist → l ≠ []) →
      ∃ ms, normalizeEntries hist = Except.ok ms := by
  intro hist
  induction hist with
  | nil => intro _; exact ⟨[], rfl⟩
  | cons e rest ih =>
      intro h
      obtain ⟨ms, hms⟩ := ih (fun l hl => h l (List.mem_cons_of_mem _ hl))
      have hone : ∃ ms1, normalizeEntry e = Except.ok ms1 := by
        cases e with
        | pair items =>
            cases items with
            | nil => exact absurd rfl (h [] (List.mem_cons_self _ _))
            | cons u rest2 =>
                cases rest2 with
                | nil => exact ⟨[mkUser u], rfl⟩
                | cons a t =>
                    by_cases ha : a = ""
                    · exact ⟨[mkUser u], by simp [normalizeEntry, ha]⟩
                    · exact ⟨[mkUser u, mkAssistant a], by simp [normalizeEntry, ha]⟩
        | dict m => exact ⟨[m], rfl⟩
        | other => exact ⟨[], rfl⟩
      obtain ⟨ms1, hms1⟩ := hone
      exact ⟨ms1 ++ ms, by simp only [normalizeEntries, hms1, hms]⟩

/-- Every message produced by normalizing the history entries has role
"user", "assistant", or the role of a dict entry appended verbatim; in
particular, if no dict entry carries role "system", no normalized
entry message does. -/
theorem normalizeEntries_no_system :
    ∀ (hist : List HistoryEntry) (ms : List Msg),
      (∀ m, HistoryEntry.dict m ∈ hist → m.role ≠ "system") →
      normalizeEntries hist = Except.ok ms →
      ∀ m ∈ ms, m.role ≠ "system" := by
  intro hist
  induction hist with
  | nil =>
      intro ms _ hok
      simp only [normalizeEntries] at hok
      cases hok
      intro m hm; cases hm
  | cons e rest ih =>
      intro ms hd hok
      simp only [normalizeEntries] at hok
      cases h1 : normalizeEntry e with
      | error err => rw [h1] at hok; simp at hok
      | ok ms1 =>
          rw [h1] at hok
          cases h2 : normalizeEntries rest with
          | error err => rw [h2] at hok; simp at hok
          | ok ms2 =>
              rw [h2] at hok
              cases hok
              intro m hm
              rcases List.mem_append.mp hm with hm1 | hm2
              · cases e with
                | pair items =>
                    cases items with
                    | nil => simp [normalizeEntry] at h1
                    | cons u rest2 =>
                        cases rest2 with
                        | nil =>
                            simp only [normalizeEntry] at h1
                            cases h1
                            simp only [List.mem_singleton] at hm1
                            subst hm1
                            simp [mkUser]
                        | cons a t =>
                            simp only [normalizeEntry] at h1
                            by_cases ha : a = ""
                            · rw [if_pos ha] at h1
                              cases h1
                              simp only [List.mem_singleton] at hm1
                              subst hm1
                              simp [mkUser]
                            · rw [if_neg ha] at h1
                              cases h1
                              rcases List.mem_cons.mp hm1 with rfl | hm1
                              · simp [mkUser]
                              · simp only [List.mem_singleton] at hm1
                                subst hm1
                                simp [mkAssistant]
                | dict md =>
                    simp only [normalizeEntry] at h1
                    cases h1
                    simp only [List.mem_singleton] at hm1
                    subst hm1
                    exact hd m (List.mem_cons_self _ _)
                | other =>
                    simp only [normalizeEntry] at h1
                    cases h1
                    cases hm1
              · exact ih ms2 (fun m hm => hd m (List.mem_cons_of_mem _ hm)) h2 m hm2

/-! Claim theorems. -/

/-- Claim C9: the system prompt builder is a deterministic function of
the identity (name, role) and the knowledge context (it is a plain
function of those three arguments, with no other inputs), and its
output always contains the identity display name, the identity role
title, and the knowledge context text as literal substrings (each
conjunct exhibits the prompt as prefix ++ part ++ suffix). -/
theorem system_prompt_contains_identity_and_context (n r c : String) :
    (∃ p q, system_prompt n r c = p ++ (n ++ q)) ∧
    (∃ p q, system_prompt n r c = p ++ (r ++ q)) ∧
    (∃ p q, system_prompt n r c = p ++ (c ++ q)) := by
  refine ⟨⟨"\n    You are acting as ", ?rest1, ?_⟩, ?_, ?_⟩
  case rest1 =>
    exact ", a " ++ (r ++ (".\n    \n    ## DUAL GOAL\n    1. **Candidate:** Answer impressively using the RESUME CONTEXT.\n    2. **Coach:** After the answer, explain WHY it is good.\n\n    ## INSTRUCTIONS\n    - Speak in First Person (\"I\", \"Me\").\n    - Use the STAR Method (Situation, Task, Action, Result).\n    - If asked about a company, use \x27google_search\x27 first.\n    - End with a \x27Coach\x27s Note\x27.\n\n    ## RESUME CONTEXT\n    " ++ (c ++ "\n    ")))
  · simp [system_prompt, String.append_assoc]
  · refine ⟨"\n    You are acting as " ++ n ++ ", a ",
      ".\n    \n    ## DUAL GOAL\n    1. **Candidate:** Answer impressively using the RESUME CONTEXT.\n    2. **Coach:** After the answer, explain WHY it is good.\n\n    ## INSTRUCTIONS\n    - Speak in First Person (\"I\", \"Me\").\n    - Use the STAR Method (Situation, Task, Action, Result).\n    - If asked about a company, use \x27google_search\x27 first.\n    - End with a \x27Coach\x27s Note\x27.\n\n    ## RESUME CONTEXT\n    " ++ (c ++ "\n    "), ?_⟩
    simp [system_prompt, String.append_assoc]
  · refine ⟨"\n    You are acting as " ++ n ++ ", a " ++ r ++
      ".\n    \n    ## DUAL GOAL\n    1. **Candidate:** Answer impressively using the RESUME CONTEXT.\n    2. **Coach:** After the answer, explain WHY it is good.\n\n    ## INSTRUCTIONS\n    - Speak in First Person (\"I\", \"Me\").\n    - Use the STAR Method (Situation, Task, Action, Result).\n    - If asked about a company, use \x27google_search\x27 first.\n    - End with a \x27Coach\x27s Note\x27.\n\n    ## RESUME CONTEXT\n    ",
      "\n    ", ?_⟩
    simp [system_prompt, String.append_assoc]

/-- Claim C4: a first-completion response with zero tool calls makes
`chat` return exactly the content of that response, unmodified, including
when the content is the empty string. -/
theorem chat_returns_content_when_no_tool_calls
    (complete : List Msg → Bool → Except String Response)
    (decodeArgs : String → Except String String) (search : String → String)
    (sysPrompt message : String) (history : List HistoryEntry)
    (norm : List Msg) (resp : Response)
    (hnorm : normalizeHistory sysPrompt history message = Except.ok norm)
    (hfirst : complete norm true = Except.ok resp)
    (hempty : resp.tool_calls = []) :
    chat complete decodeArgs search sysPrompt message history =
      Except.ok resp.content := by
  simp only [chat, chatT, hnorm, hfirst, hempty, if_pos]

/-- Witness for C4: a backend whose first response has empty content
and no tool calls; `chat` returns the empty string, not an error. -/
theorem chat_returns_content_when_no_tool_calls_witness :
    normalizeHistory "S" ([] : List HistoryEntry) "m" =
      Except.ok [mkSystem "S", mkUser "m"] ∧
    chat (fun _ _ => Except.ok ⟨"", []⟩) (fun s => Except.ok s) (fun _ => "")
      "S" "m" [] = Except.ok "" :=
  ⟨rfl,
    chat_returns_content_when_no_tool_calls
      (fun _ _ => Except.ok ⟨"", []⟩) (fun s => Except.ok s) (fun _ => "")
      "S" "m" [] [mkSystem "S", mkUser "m"] ⟨"", []⟩ rfl rfl rfl⟩

/-- Claim C5: the search adapter returns exactly the first two entries
of the organic array of the provider response when it has at least two, all of them
when it has fewer, and on a request or parse failure it returns an
error string; it is a total function (never raises) by its type. -/
theorem google_search_takes_top_two
    (post : String → Except String (Option (List String)))
    (dumps : List String → String) (query : String) :
    (∀ organic, post query = Except.ok (some organic) → 2 ≤ organic.length →
        google_search post dumps query = dumps (organic.take 2) ∧
          (organic.take 2).length = 2) ∧
    (∀ organic, post query = Except.ok (some organic) → organic.length < 2 →
        google_search post dumps query = dumps organic) ∧
    (∀ e, post query = Except.error e →
        google_search post dumps query = "Search Error: " ++ e) := by
  refine ⟨?_, ?_, ?_⟩
  · intro organic hp hlen
    refine ⟨by simp [google_search, hp], ?_⟩
    simp only [List.length_take]
    omega
  · intro organic hp hlen
    have ht : organic.take 2 = organic := List.take_of_length_le (by omega)
    simp [google_search, hp, ht]
  · intro e hp
    simp [google_search, hp]

/-- Witness for C5: a provider response with three organic entries
yields exactly the first two, serialized. -/
theorem google_search_takes_top_two_witness :
    2 ≤ (["r1", "r2", "r3"] : List String).length ∧
    google_search (fun _ => Except.ok (some ["r1", "r2", "r3"]))
      (fun l => String.join l) "q" = "r1r2" :=
  ⟨by decide,
    (((google_search_takes_top_two (fun _ => Except.ok (some ["r1", "r2", "r3"]))
      (fun l => String.join l) "q").1 ["r1", "r2", "r3"] rfl (by decide)).1).trans
      (by decide)⟩

/-- Claim C1, counterexample: a first response carrying exactly one
tool-call request whose name is "summarize" (not registered).  The
conversation sent to the second completion contains zero messages of
role "tool", not one per request: the dispatch loop body only handles
the name "google_search" and has no else branch, so the request is
skipped and no tool-result message is appended. -/
theorem chat_tool_result_count_cex :
    (chatT (fun _ b => if b then Except.ok ⟨"", [⟨"c1", "summarize", "a1"⟩]⟩
        else Except.ok ⟨"done", []⟩)
      (fun s => Except.ok s) (fun _ => "r") "S" "m" []).2 =
      [([mkSystem "S", mkUser "m"], true),
       ([mkSystem "S", mkUser "m",
         ⟨"assistant", "", none, [⟨"c1", "summarize", "a1"⟩]⟩], false)] ∧
    List.countP (fun m => m.role == "tool")
      [mkSystem "S", mkUser "m",
       ⟨"assistant", "", none, [⟨"c1", "summarize", "a1"⟩]⟩] = 0 :=
  ⟨rfl, rfl⟩

/-- Claim C1, amended: for every first-completion response carrying
N >= 1 tool-call requests, all of which are named "google_search" (the
only registered tool) and whose dispatch completes without a decode
exception, chat appends exactly N tool-result messages to the working
conversation before issuing the second completion call, each tool
message carrying a tool_call_id equal to the id of its corresponding request,
in the same order as the requests. -/
theorem chat_appends_results_for_registered_calls
    (complete : List Msg → Bool → Except String Response)
    (decodeArgs : String → Except String String) (search : String → String)
    (sysPrompt message : String) (history : List HistoryEntry)
    (norm : List Msg) (resp : Response) (tms : List Msg)
    (hnorm : normalizeHistory sysPrompt history message = Except.ok norm)
    (hfirst : complete norm true = Except.ok resp)
    (hne : resp.tool_calls ≠ [])
    (hname : ∀ tc ∈ resp.tool_calls, tc.name = "google_search")
    (hdisp : dispatchTools decodeArgs search resp.tool_calls = Except.ok tms) :
    tms.length = resp.tool_calls.length ∧
    tms.map (fun m => m.tool_call_id) =
      resp.tool_calls.map (fun tc => some tc.id) ∧
    tms.map (fun m => m.role) = resp.tool_calls.map (fun _ => "tool") ∧
    (chatT complete decodeArgs search sysPrompt message history).2 =
      [(norm, true), (norm ++ assistantOf resp :: tms, false)] := by
  obtain ⟨hids, hroles⟩ :=
    dispatchTools_map_spec decodeArgs search resp.tool_calls tms hname hdisp
  refine ⟨?_, hids, hroles, ?_⟩
  · have hl := congrArg List.length hids
    simpa using hl
  · simp only [chatT, hnorm, hfirst, hdisp]
    rw [if_neg hne]
    cases complete (norm ++ assistantOf resp :: tms) false <;> rfl

/-- Witness for the amended C1: two "google_search" requests produce
exactly two tool messages, ids "c1" then "c2", appended before the
second completion call. -/
theorem chat_appends_results_for_registered_calls_witness :
    ([mkToolMsg "c1" "res", mkToolMsg "c2" "res"].map (fun m => m.tool_call_id) =
      [some "c1", some "c2"]) ∧
    (chatT (fun _ b => if b then
          Except.ok ⟨"", [⟨"c1", "google_search", "a1"⟩,
            ⟨"c2", "google_search", "a2"⟩]⟩
        else Except.ok ⟨"done", []⟩)
        (fun s => Except.ok s) (fun _ => "res") "S" "m" []).2 =
      [([mkSystem "S", mkUser "m"], true),
       ([mkSystem "S", mkUser "m",
         ⟨"assistant", "", none, [⟨"c1", "google_search", "a1"⟩,
           ⟨"c2", "google_search", "a2"⟩]⟩,
         mkToolMsg "c1" "res", mkToolMsg "c2" "res"], false)] := by
  have h := chat_appends_results_for_registered_calls
    (fun _ b => if b then
        Except.ok ⟨"", [⟨"c1", "google_search", "a1"⟩,
          ⟨"c2", "google_search", "a2"⟩]⟩
      else Except.ok ⟨"done", []⟩)
    (fun s => Except.ok s) (fun _ => "res") "S" "m" []
    [mkSystem "S", mkUser "m"]
    ⟨"", [⟨"c1", "google_search", "a1"⟩, ⟨"c2", "google_search", "a2"⟩]⟩
    [mkToolMsg "c1" "res", mkToolMsg "c2" "res"]
    rfl rfl (by decide) (by decide) rfl
  exact ⟨h.2.1, h.2.2.2⟩

/-- Claim C2, counterexample: a first response requesting "c1" with
the unregistered name "web_lookup" and "c2" with "google_search".  The
conversation sent to the second completion contains no tool-result
message for "c1" at all — in particular none stating the tool is
unknown — because the loop body only has an if branch for the name
"google_search".  (The second half of the claim does hold: dispatch
continued and "c2" received its tool result.) -/
theorem chat_unknown_tool_message_cex :
    (chatT (fun _ b => if b then
          Except.ok ⟨"", [⟨"c1", "web_lookup", "a1"⟩,
            ⟨"c2", "google_search", "a2"⟩]⟩
        else Except.ok ⟨"done", []⟩)
      (fun s => Except.ok s) (fun _ => "res") "S" "m" []).2 =
      [([mkSystem "S", mkUser "m"], true),
       ([mkSystem "S", mkUser "m",
         ⟨"assistant", "", none, [⟨"c1", "web_lookup", "a1"⟩,
           ⟨"c2", "google_search", "a2"⟩]⟩,
         mkToolMsg "c2" "res"], false)] ∧
    List.countP (fun m => m.tool_call_id == some "c1")
      [mkSystem "S", mkUser "m",
       ⟨"assistant", "", none, [⟨"c1", "web_lookup", "a1"⟩,
         ⟨"c2", "google_search", "a2"⟩]⟩,
       mkToolMsg "c2" "res"] = 0 :=
  ⟨rfl, rfl⟩

/-- Claim C2, amended: a tool-call request whose name is not the
registered "google_search" does not fail the turn, but it also yields
no tool-result message: it is silently skipped, and dispatch continues
with the remaining tool calls of the same response (the loop result on
the request consed onto the rest equals the result on the rest). -/
theorem dispatchTools_skips_unknown_tool
    (decodeArgs : String → Except String String) (search : String → String)
    (tc : ToolCall) (rest : List ToolCall)
    (h : tc.name ≠ "google_search") :
    dispatchTools decodeArgs search (tc :: rest) =
      dispatchTools decodeArgs search rest := by
  simp only [dispatchTools]
  rw [if_neg h]

/-- Witness for the amended C2: the request named "web_lookup" is
skipped and the remaining "google_search" request is still
dispatched. -/
theorem dispatchTools_skips_unknown_tool_witness :
    ToolCall.name ⟨"c1", "web_lookup", "a1"⟩ ≠ "google_search" ∧
    dispatchTools (fun s => Except.ok s) (fun _ => "res")
      [⟨"c1", "web_lookup", "a1"⟩, ⟨"c2", "google_search", "a2"⟩] =
      dispatchTools (fun s => Except.ok s) (fun _ => "res")
        [⟨"c2", "google_search", "a2"⟩] :=
  ⟨by decide,
    dispatchTools_skips_unknown_tool (fun s => Except.ok s) (fun _ => "res")
      ⟨"c1", "web_lookup", "a1"⟩ [⟨"c2", "google_search", "a2"⟩] (by decide)⟩

/-- Claim C10: when the tool_calls list of the first response is non-empty
but contains only unregistered names, chat still appends the assistant
message bearing the tool_calls, appends zero tool-result messages,
issues the second completion over that conversation (without tool
specs), and returns the content of the second completion. -/
theorem chat_all_unknown_tools_still_second_call
    (complete : List Msg → Bool → Except String Response)
    (decodeArgs : String → Except String String) (search : String → String)
    (sysPrompt message : String) (history : List HistoryEntry)
    (norm : List Msg) (resp resp2 : Response)
    (hnorm : normalizeHistory sysPrompt history message = Except.ok norm)
    (hfirst : complete norm true = Except.ok resp)
    (hne : resp.tool_calls ≠ [])
    (hunk : ∀ tc ∈ resp.tool_calls, tc.name ≠ "google_search")
    (hsecond : complete (norm ++ [assistantOf resp]) false = Except.ok resp2) :
    chatT complete decodeArgs search sysPrompt message history =
      (Except.ok resp2.content,
       [(norm, true), (norm ++ [assistantOf resp], false)]) := by
  have hdisp := dispatchTools_all_unknown decodeArgs search resp.tool_calls hunk
  simp only [chatT, hnorm, hfirst, hdisp]
  rw [if_neg hne]
  simp only [hsecond]

/-- Witness for C10: one request named "web_lookup" only; the trace
shows the assistant message appended, no tool message, a second
tool-spec-free call, and the second content "done" returned. -/
theorem chat_all_unknown_tools_still_second_call_witness :
    chatT (fun _ b => if b then
          Except.ok ⟨"", [⟨"c1", "web_lookup", "a1"⟩]⟩
        else Except.ok ⟨"done", []⟩)
      (fun s => Except.ok s) (fun _ => "res") "S" "m" [] =
      (Except.ok "done",
       [([mkSystem "S", mkUser "m"], true),
        ([mkSystem "S", mkUser "m",
          ⟨"assistant", "", none, [⟨"c1", "web_lookup", "a1"⟩]⟩], false)]) :=
  chat_all_unknown_tools_still_second_call
    (fun _ b => if b then
        Except.ok ⟨"", [⟨"c1", "web_lookup", "a1"⟩]⟩
      else Except.ok ⟨"done", []⟩)
    (fun s => Except.ok s) (fun _ => "res") "S" "m" []
    [mkSystem "S", mkUser "m"]
    ⟨"", [⟨"c1", "web_lookup", "a1"⟩]⟩ ⟨"done", []⟩
    rfl rfl (by decide) (by decide) rfl

/-- Claim C3: once the history has normalized (normalization runs
before the try block), chat never returns a raised fault: whatever the
backend and the argument decoder do, the result is a normal string
(`isOk`), and an exception raised by the first completion call, by
argument decoding during dispatch, or by the second completion call is
returned as the string "System Error: " followed by the exception
text. -/
theorem chat_catches_backend_and_decode_errors
    (complete : List Msg → Bool → Except String Response)
    (decodeArgs : String → Except String String) (search : String → String)
    (sysPrompt message : String) (history : List HistoryEntry)
    (norm : List Msg)
    (hnorm : normalizeHistory sysPrompt history message = Except.ok norm) :
    (chat complete decodeArgs search sysPrompt message history).isOk = true ∧
    (∀ e, complete norm true = Except.error e →
      chat complete decodeArgs search sysPrompt message history =
        Except.ok ("System Error: " ++ e)) ∧
    (∀ resp e, complete norm true = Except.ok resp → resp.tool_calls ≠ [] →
      dispatchTools decodeArgs search resp.tool_calls = Except.error e →
      chat complete decodeArgs search sysPrompt message history =
        Except.ok ("System Error: " ++ e)) ∧
    (∀ resp tms e, complete norm true = Except.ok resp → resp.tool_calls ≠ [] →
      dispatchTools decodeArgs search resp.tool_calls = Except.ok tms →
      complete (norm ++ assistantOf resp :: tms) false = Except.error e →
      chat complete decodeArgs search sysPrompt message history =
        Except.ok ("System Error: " ++ e)) := by
  refine ⟨?_, ?_, ?_, ?_⟩
  · simp only [chat, chatT, hnorm]
    cases hc : complete norm true with
    | error e => rfl
    | ok resp =>
        dsimp only
        by_cases ht : resp.tool_calls = []
        · rw [if_pos ht]; rfl
        · rw [if_neg ht]
          cases hd : dispatchTools decodeArgs search resp.tool_calls with
          | error e => rfl
          | ok tms =>
              dsimp only
              cases hs : complete (norm ++ assistantOf resp :: tms) false with
              | error e => rfl
              | ok fin => rfl
  · intro e hce
    simp only [chat, chatT, hnorm, hce]
  · intro resp e hok hne hde
    simp only [chat, chatT, hnorm, hok, hde]
    rw [if_neg hne]
  · intro resp tms e hok hne hdi hse
    simp only [chat, chatT, hnorm, hok, hdi]
    rw [if_neg hne]
    simp only [hse]

/-- Witness for C3: the first completion raises "boom"; chat returns
the normal string "System Error: boom" rather than a fault. -/
theorem chat_catches_backend_and_decode_errors_witness :
    normalizeHistory "S" ([] : List HistoryEntry) "m" =
      Except.ok [mkSystem "S", mkUser "m"] ∧
    chat (fun _ _ => Except.error "boom") (fun s => Except.ok s) (fun _ => "")
      "S" "m" [] = Except.ok "System Error: boom" := by
  have h := chat_catches_backend_and_decode_errors
    (fun _ _ => Except.error "boom") (fun s => Except.ok s) (fun _ => "")
    "S" "m" [] [mkSystem "S", mkUser "m"] rfl
  exact ⟨rfl, h.2.1 "boom" rfl⟩

/-- Claim C6, counterexample: a history containing an empty list/tuple
entry.  `entry[0]` raises an IndexError before the try block, so the
normalization step crashes and the fault escapes chat uncaught. -/
theorem normalize_crashes_on_empty_pair_cex :
    normalizeHistory "S" [HistoryEntry.pair []] "m" =
      Except.error "IndexError: list index out of range" ∧
    chat (fun _ _ => Except.ok ⟨"x", []⟩) (fun s => Except.ok s) (fun _ => "")
      "S" "m" [HistoryEntry.pair []] =
      Except.error "IndexError: list index out of range" :=
  ⟨rfl, rfl⟩

/-- Claim C6, amended: normalization completes without crashing for
every history sequence whose list/tuple entries all have at least one
element; dict entries and entries of any other type never crash it.  A
zero-length list/tuple entry is the one exception: it raises an
uncaught IndexError (see the counterexample). -/
theorem normalize_total_on_nonempty_pairs
    (sysPrompt message : String) (history : List HistoryEntry)
    (h : ∀ l, HistoryEntry.pair l ∈ history → l ≠ []) :
    ∃ ms, normalizeHistory sysPrompt history message = Except.ok ms := by
  obtain ⟨ms, hms⟩ := normalizeEntries_ok history h
  refine ⟨mkSystem sysPrompt :: ms ++ [mkUser message], ?_⟩
  simp only [normalizeHistory, hms]

/-- Witness for the amended C6: a history with a well-formed pair, an
entry of unknown type, and a dict entry normalizes successfully. -/
theorem normalize_total_on_nonempty_pairs_witness :
    (normalizeHistory "S"
      [HistoryEntry.pair ["u", "a"], HistoryEntry.other,
       HistoryEntry.dict (mkAssistant "x")] "m").isOk = true := by
  obtain ⟨ms, hms⟩ := normalize_total_on_nonempty_pairs "S" "m"
    [HistoryEntry.pair ["u", "a"], HistoryEntry.other,
     HistoryEntry.dict (mkAssistant "x")]
    (by
      intro l hl
      simp only [List.mem_cons, List.mem_singleton] at hl
      rcases hl with h1 | h1 | h1
      · injection h1 with h2
        subst h2
        simp
      · simp at h1
      · simp at h1)
  rw [hms]
  rfl

/-- Claim C7, counterexample: a structured (dict) history entry with
role "system" is appended verbatim after the built system message,
so the normalized conversation opens with a run of two system
messages, not exactly one. -/
theorem normalize_leading_system_cex :
    normalizeHistory "S" [HistoryEntry.dict (mkSystem "inj")] "m" =
      Except.ok [mkSystem "S", mkSystem "inj", mkUser "m"] ∧
    (([mkSystem "S", mkSystem "inj", mkUser "m"]).takeWhile
        (fun m => m.role == "system")).length = 2 :=
  ⟨rfl, rfl⟩

/-- Claim C7, amended: provided no structured (dict) history entry
carries role "system", the normalized conversation has exactly one
leading system message; the non-empty assistant value of a pair-shaped
content is included as an assistant message, and an empty assistant
value in a pairing is omitted (no empty assistant message is
emitted). -/
theorem normalize_one_leading_system
    (sysPrompt message : String) (history : List HistoryEntry)
    (conv : List Msg)
    (hnorm : normalizeHistory sysPrompt history message = Except.ok conv)
    (hnosys : ∀ m, HistoryEntry.dict m ∈ history → m.role ≠ "system") :
    (conv.takeWhile (fun m => m.role == "system")).length = 1 ∧
    (∀ u a, a ≠ "" → normalizeEntry (HistoryEntry.pair [u, a]) =
      Except.ok [mkUser u, mkAssistant a]) ∧
    (∀ u, normalizeEntry (HistoryEntry.pair [u, ""]) =
      Except.ok [mkUser u]) := by
  refine ⟨?_, ?_, ?_⟩
  · simp only [normalizeHistory] at hnorm
    cases he : normalizeEntries history with
    | error err => rw [he] at hnorm; simp at hnorm
    | ok ms =>
        rw [he] at hnorm
        cases hnorm
        have hnos := normalizeEntries_no_system history ms hnosys he
        cases hms : ms with
        | nil =>
            simp [mkSystem, mkUser]
        | cons m0 mtail =>
            have h0 : (m0.role == "system") = false := by
              rw [beq_eq_false_iff_ne]
              exact hnos m0 (by rw [hms]; exact List.mem_cons_self _ _)
            simp [mkSystem, h0]
  · intro u a ha
    simp [normalizeEntry, ha]
  · intro u
    simp [normalizeEntry]

/-- Witness for the amended C7: a history with one non-system dict
entry; the normalized conversation has exactly one leading system
message, and a pair with non-empty assistant "a" keeps it while a pair
with empty assistant omits it. -/
theorem normalize_one_leading_system_witness :
    (([mkSystem "S", mkAssistant "x", mkUser "m"]).takeWhile
        (fun m => m.role == "system")).length = 1 ∧
    normalizeEntry (HistoryEntry.pair ["u", "a"]) =
      Except.ok [mkUser "u", mkAssistant "a"] ∧
    normalizeEntry (HistoryEntry.pair ["u", ""]) =
      Except.ok [mkUser "u"] := by
  have h := normalize_one_leading_system "S" "m"
    [HistoryEntry.dict (mkAssistant "x")]
    [mkSystem "S", mkAssistant "x", mkUser "m"] rfl
    (by
      intro m hm
      simp only [List.mem_singleton] at hm
      injection hm with h2
      subst h2
      simp [mkAssistant])
  exact ⟨h.1, h.2.1 "u" "a" (by decide), h.2.2 "u"⟩

/-- Claim C8: chat makes at most two completion calls per turn, and
every completion call after the first is issued without tool specs
attached (the trace flag is false for the whole tail of the call
trace), so no tool dispatch beyond the single first round can occur
within one user turn. -/
theorem chat_at_most_one_dispatch_round
    (complete : List Msg → Bool → Except String Response)
    (decodeArgs : String → Except String String) (search : String → String)
    (sysPrompt message : String) (history : List HistoryEntry) :
    (chatT complete decodeArgs search sysPrompt message history).2.length ≤ 2 ∧
    ((chatT complete decodeArgs search sysPrompt message history).2.tail.all
      (fun call => !call.2)) = true := by
  cases hn : normalizeHistory sysPrompt history message with
  | error e => simp [chatT, hn]
  | ok messages =>
      cases hc : complete messages true with
      | error e => simp [chatT, hn, hc]
      | ok resp =>
          by_cases ht : resp.tool_calls = []
          · simp [chatT, hn, hc, ht]
          · cases hd : dispatchTools decodeArgs search resp.tool_calls with
            | error e => simp [chatT, hn, hc, ht, hd]
            | ok tms =>
                cases hs : complete (messages ++ assistantOf resp :: tms) false with
                | error e => simp [chatT, hn, hc, ht, hd, hs]
                | ok finalRes => simp [chatT, hn, hc, ht, hd, hs]

end InterviewBot
